import Mathlib

/-!
Verification of the typeix runtime core: the hierarchical dependency-injection
container (`Injector`) and the per-request lifecycle orchestrator (`Request`).

The embedding is shallow: each source function is translated into an
executable Lean definition over an explicit state type.  The `Injector`
tree (parent / children links, per-node provider map) is a function from
node ids to node records; JavaScript `Map` instances become association
lists with `Map.set` replace-or-append semantics; the live-array semantics
of `Array.prototype.forEach` (length captured once, each index read from
the current array) is modelled index by index, because `Injector.destroy`
mutates the array it iterates.
-/

/-- One `Injector` node: its `_uid` identifier, its `_providers` map
(association list, JS `Map` semantics), its optional `parent` link and its
`_children` list (node ids). -/
structure Inj where
  uid : String
  providers : List (String × Nat)
  parent : Option Nat
  children : List Nat

/-- The heap of injector nodes, addressed by id. -/
structure InjTree where
  nodes : Nat → Inj

/-- Update a single node of the tree. -/
def updNode (t : InjTree) (i : Nat) (f : Inj → Inj) : InjTree :=
  ⟨fun j => if j = i then f (t.nodes j) else t.nodes j⟩

/-- JS `Map.prototype.set`: replace the binding for `k` if present
(keeping its position), otherwise append. -/
def mapSet (l : List (String × Nat)) (k : String) (v : Nat) : List (String × Nat) :=
  match l with
  | [] => [(k, v)]
  | (k2, w) :: rest => if k2 == k then (k, v) :: rest else (k2, w) :: mapSet rest k v

/-- JS `array.splice(array.indexOf(c), 1)`: remove the first occurrence of
`c`; when `c` is absent, `indexOf` returns `-1` and `splice(-1, 1)` removes
the LAST element of the array. -/
def spliceRemove (l : List Nat) (c : Nat) : List Nat :=
  match l.findIdx? (fun x => x == c) with
  | some i => l.eraseIdx i
  | none => l.dropLast

/-- `Injector.removeChild`: `this._children.splice(this._children.indexOf(injector), 1)`. -/
def Injector.removeChild (t : InjTree) (p c : Nat) : InjTree :=
  updNode t p (fun n => { n with children := spliceRemove n.children c })

/-- The `forEach` loop of `Injector.destroy`, parameterized by the
per-child action `d` (the recursive destroy at the next fuel level): the
length was captured when the loop started (`rem` counts the remaining
indices), but each index `k` is read from the CURRENT children array,
exactly as JS `forEach` does; an index past the current length is
skipped. -/
def destroyChildren (d : InjTree → Nat → InjTree) (t : InjTree) (i k rem : Nat) : InjTree :=
  match rem with
  | 0 => t
  | r + 1 =>
    match (t.nodes i).children.get? k with
    | some c => destroyChildren d (d t c) i (k + 1) r
    | none => destroyChildren d t i (k + 1) r

/-- `Injector.destroy`: detach from the parent, run
`this._children.forEach(injector => injector.destroy())` over the LIVE
children array, then set `_children = []`, `parent = undefined` and clear
the provider map.  Recursion depth is bounded by `fuel`. -/
def Injector.destroy (fuel : Nat) : InjTree → Nat → InjTree :=
  match fuel with
  | 0 => fun t _ => t
  | f + 1 => fun t i =>
    let t1 := match (t.nodes i).parent with
      | some p => Injector.removeChild t p i
      | none => t
    let t2 := destroyChildren (Injector.destroy f) t1 i 0 ((t1.nodes i).children.length)
    let t3 := updNode t2 i (fun n => { n with children := [] })
    let t4 := updNode t3 i (fun n => { n with parent := none })
    updNode t4 i (fun n => { n with providers := [] })

/-- `Injector.has`: local-only membership test on the provider map. -/
def Injector.has (t : InjTree) (i : Nat) (k : String) : Bool :=
  (List.lookup k (t.nodes i).providers).isSome

/-- `Injector.set`: unconditional (re)bind in the local provider map. -/
def Injector.set (t : InjTree) (i : Nat) (k : String) (v : Nat) : InjTree :=
  updNode t i (fun n => { n with providers := mapSet n.providers k v })

/-- `Injector.get`: if the key is absent locally and a parent exists,
delegate to the parent; if present locally, return the local binding;
otherwise fail with the "No provider" error message built by the node that
found no parent (naming the key, the requesting class when supplied, and
that node's `_uid`). -/
def Injector.get (fuel : Nat) (t : InjTree) (i : Nat) (k : String) (cls : Option String) :
    Except String Nat :=
  match fuel with
  | 0 => Except.error "fuel exhausted"
  | f + 1 =>
    match List.lookup k (t.nodes i).providers, (t.nodes i).parent with
    | none, some p => Injector.get f t p k cls
    | some v, _ => Except.ok v
    | none, none =>
      match cls with
      | some c =>
        Except.error ("No provider for " ++ k ++ " on class " ++ c ++ " , injector: "
          ++ (t.nodes i).uid)
      | none =>
        Except.error ("No provider for " ++ k ++ ", injector: " ++ (t.nodes i).uid)

/-- A two-node ancestor chain: node 0 is the parent (uid `u0`, providers
`pP`, one child), node 1 is the child (uid `u1`, providers `cP`). -/
def chain2 (u0 u1 : String) (pP cP : List (String × Nat)) : InjTree :=
  ⟨fun j =>
    if j = 1 then ⟨u1, cP, some 0, []⟩
    else if j = 0 then ⟨u0, pP, none, [1]⟩
    else ⟨"", [], none, []⟩⟩

/-- A root container with two live children, each holding one binding. -/
def bugTree : InjTree :=
  ⟨fun j =>
    if j = 1 then ⟨"c1", [("k1", 1)], some 0, []⟩
    else if j = 2 then ⟨"c2", [("k2", 2)], some 0, []⟩
    else if j = 0 then ⟨"root", [], none, [1, 2]⟩
    else ⟨"", [], none, []⟩⟩

/-- `needle` occurs as a contiguous substring of `hay`. -/
def mentions (hay needle : String) : Prop :=
  ∃ pre post, hay.data = pre ++ needle.data ++ post

/-- Executable substring test used to decide `mentions` on closed strings. -/
def containsB (hay needle : String) : Bool :=
  (List.range (hay.data.length + 1)).any (fun i => List.isPrefixOf needle.data (hay.data.drop i))

/-!
Request orchestrator (`src/app/bootstrap.ts`).  JavaScript runtime values
reaching the pipeline are modelled by `JsVal`; the per-request observable
state (status code, body buffer, response writes, log entries, lifecycle
listeners) by `RSt`.  `HttpError` (declared in the repository outside the
provided sources) is modelled from the spec as a structured error carrying
an HTTP status code, a message and a stack trace.
-/

/-- A JavaScript value as seen by the pipeline: strings, Buffers, numbers,
plain `Error` objects (a `message` and a `stack`), structured `HttpError`
objects, `undefined`, or some other opaque object.  Modelled from the spec
for `HttpError`: a structured error carrying an HTTP status code and a
message, with a stack trace and diagnostic data attached. -/
inductive JsVal where
  | undef : JsVal
  | str : String → JsVal
  | buf : List Nat → JsVal
  | num : Nat → JsVal
  | obj : JsVal
  | jsError : JsVal → JsVal → JsVal
  | httpError : Nat → JsVal → JsVal → JsVal → JsVal
deriving DecidableEq

/-- `error instanceof HttpError`. -/
def isHttpError : JsVal → Bool
  | JsVal.httpError _ _ _ _ => true
  | _ => false

/-- The TypeError the engine throws on a property access against
`undefined` (`Cannot read properties of undefined`). -/
def typeErrorRead (prop : String) : JsVal :=
  JsVal.jsError
    (JsVal.str ("TypeError: Cannot read properties of undefined (reading " ++ prop ++ ")"))
    (JsVal.str "TypeError stack")

/-- The TypeError the engine throws when a missing method is called. -/
def typeErrorNotFunction (prop : String) : JsVal :=
  JsVal.jsError (JsVal.str ("TypeError: " ++ prop ++ " is not a function"))
    (JsVal.str "TypeError stack")

/-- Property access `error.message`: on `undefined` the access itself
throws a TypeError; on objects without a `message` it yields `undefined`;
on Error objects it yields their message. -/
def jsMessage : JsVal → Except JsVal JsVal
  | JsVal.undef => Except.error (typeErrorRead "message")
  | JsVal.jsError m _ => Except.ok m
  | JsVal.httpError _ m _ _ => Except.ok m
  | _ => Except.ok JsVal.undef

/-- Property access `error.stack`: on `undefined` the access itself throws
a TypeError; on objects without a `stack` it yields `undefined`; on Error
objects it yields their stack. -/
def jsStack : JsVal → Except JsVal JsVal
  | JsVal.undef => Except.error (typeErrorRead "stack")
  | JsVal.jsError _ s => Except.ok s
  | JsVal.httpError _ _ s _ => Except.ok s
  | _ => Except.ok JsVal.undef

/-- The method call `error.getCode()`: only the structured `HttpError`
(modelled from the spec: it carries its HTTP status code) has this method;
on every other value the call throws a TypeError. -/
def getCode : JsVal → Except JsVal Nat
  | JsVal.httpError c _ _ _ => Except.ok c
  | _ => Except.error (typeErrorNotFunction "getCode")

/-- The text of a JS string value (empty for non-strings). -/
def textOf : JsVal → String
  | JsVal.str s => s
  | _ => ""

/-- `error.toString()` on the structured error.  Modelled from the spec:
a textual rendering of the error; its exact shape is not relied upon.  In
the pipeline it is only ever applied to `HttpError` values. -/
def errToString (e : JsVal) : String :=
  match e with
  | JsVal.httpError c (JsVal.str s) _ _ => "HttpError " ++ toString c ++ ": " ++ s
  | JsVal.httpError c _ _ _ => "HttpError " ++ toString c
  | _ => ""

/-- `clean` from the logger module (repository code outside the provided
sources).  Modelled from the spec: the sanitized (log-injection-safe)
textual rendering of the error text; modelled as the sanitized text
itself. -/
def clean (s : String) : String := s

/-- `isString(response) || (response instanceof Buffer)`. -/
def isTextOrBinary : JsVal → Bool
  | JsVal.str _ => true
  | JsVal.buf _ => true
  | _ => false

/-- The Router's normalized method enum.  Modelled from the spec: the route
descriptor exposes a normalized method enum and the orchestrator
special-cases POST / PATCH / PUT. -/
inductive Method where
  | get | post | put | patch | del | head | options
deriving DecidableEq, BEq

/-- Modelled from the spec: the numeric value of the `Methods` enum entry,
used only because JS string + enum concatenates the number's decimal form;
no claim depends on the particular numbering. -/
def methodNum : Method → Nat
  | Method.get => 0
  | Method.post => 1
  | Method.put => 2
  | Method.patch => 3
  | Method.del => 4
  | Method.head => 5
  | Method.options => 6

/-- `[Methods.POST, Methods.PATCH, Methods.PUT].indexOf(m) > -1`. -/
def isMutatingMethod (m : Method) : Bool :=
  m == Method.post || m == Method.patch || m == Method.put

/-- The route descriptor returned by `Router.parseRequest`. -/
structure Route where
  route : String
  method : Method
deriving DecidableEq

/-- Observable state of one `Request` orchestrator: mutable status code,
body buffer (`this.data`), response writes `(status, content-type,
payload)` from `writeHead`/`write`, count of `end()` calls, log entries
`(severity, message, attached value)`, the one-shot `finish`/`close`
listeners registered on the response, the number of listeners currently
attached to the destroy event emitter, and destroy bookkeeping: calls to
`Request.destroy`, calls to `emit("destroy")`, and total deliveries of the
destroy event to listeners. -/
structure RSt where
  statusCode : Nat
  dataBuf : List JsVal
  writes : List (Nat × String × JsVal)
  ends : Nat
  logs : List (String × String × JsVal)
  finishArmed : Bool
  closeArmed : Bool
  emListeners : Nat
  destroyCalls : Nat
  emitDestroyCalls : Nat
  deliveredDestroy : Nat
deriving DecidableEq

/-- `Request.destroy`: `this.eventEmitter.emit("destroy")` delivers the
event to every currently attached listener, then
`this.eventEmitter.removeAllListeners()` detaches them all. -/
def Request.destroy (st : RSt) : RSt :=
  { st with
    destroyCalls := st.destroyCalls + 1
    emitDestroyCalls := st.emitDestroyCalls + 1
    deliveredDestroy := st.deliveredDestroy + st.emListeners
    emListeners := 0 }

/-- The response `finish` signal: the one-shot listener registered by
`process` (if still armed) is removed and runs `() => this.destroy()`. -/
def fireFinish (st : RSt) : RSt :=
  if st.finishArmed then Request.destroy { st with finishArmed := false } else st

/-- The response `close` signal: the one-shot listener registered by
`process` (if still armed) is removed and runs `() => this.destroy()`. -/
def fireClose (st : RSt) : RSt :=
  if st.closeArmed then Request.destroy { st with closeArmed := false } else st

/-- `Request.render`: log at info severity; a string or Buffer payload is
written out (`writeHead` with the current status code and the fixed
`text/html` content type, `write`, `end`) and returned unchanged; any
other value is logged at error severity together with the offending value
and a structured 500 "ResponseType must be string or buffer" error
carrying that value is thrown. -/
def Request.render (st : RSt) (v : JsVal) : RSt × Except JsVal JsVal :=
  let st1 := { st with logs := st.logs ++ [("info", "Request.render", JsVal.undef)] }
  if isTextOrBinary v then
    ({ st1 with
        writes := st1.writes ++ [(st1.statusCode, "text/html", v)]
        ends := st1.ends + 1 },
      Except.ok v)
  else
    ({ st1 with logs := st1.logs ++ [("error", "Invalid response type", v)] },
      Except.error (JsVal.httpError 500 (JsVal.str "ResponseType must be string or buffer")
        JsVal.undef v))

/-- The first catch's normalization: a value that is not already an
`HttpError` is replaced by `new HttpError(500, _error.message, {})` whose
stack is then overwritten with `_error.stack`.  Both property accesses
throw a TypeError when the caught value is `undefined`, in which case the
catch callback itself throws and no structured error is produced. -/
def normalizeErr (e : JsVal) : Except JsVal JsVal :=
  if isHttpError e then Except.ok e
  else
    match jsMessage e with
    | Except.error te => Except.error te
    | Except.ok m =>
      match jsStack e with
      | Except.error te => Except.error te
      | Except.ok s => Except.ok (JsVal.httpError 500 m s JsVal.obj)

/-- First catch of `Request.process`: normalize the thrown value (which
itself throws on `undefined`), log `error.message` at error severity, set
the mutable status code from `error.getCode()`, re-render the sanitized
textual form of the error; a throw at any of these steps rejects this
stage and falls to the second catch. -/
def catchOne (st : RSt) (e : JsVal) : RSt × Except JsVal JsVal :=
  match normalizeErr e with
  | Except.error te => (st, Except.error te)
  | Except.ok err =>
    match jsMessage err with
    | Except.error te => (st, Except.error te)
    | Except.ok m =>
      let st1 := { st with logs := st.logs ++ [("error", textOf m, err)] }
      match getCode err with
      | Except.error te => (st1, Except.error te)
      | Except.ok c =>
        let st2 := { st1 with statusCode := c }
        Request.render st2 (JsVal.str (clean (errToString err)))

/-- Second catch of `Request.process`: set the status code again from
`error.getCode()` — which throws a TypeError when the value reaching it is
not an `HttpError` (e.g. the TypeError escaping the first catch) — and
re-render the sanitized error text. -/
def catchTwo (st : RSt) (e : JsVal) : RSt × Except JsVal JsVal :=
  match getCode e with
  | Except.error te => (st, Except.error te)
  | Except.ok c =>
    Request.render { st with statusCode := c } (JsVal.str (clean (errToString e)))

/-- Third catch of `Request.process`: log `error.message` and swallow the
error (the promise resolves with the logger call's undefined result). -/
def catchThree (st : RSt) (e : JsVal) : RSt × Except JsVal JsVal :=
  match jsMessage e with
  | Except.error te => (st, Except.error te)
  | Except.ok m =>
    ({ st with logs := st.logs ++ [("error", textOf m, e)] }, Except.ok JsVal.undef)

/-- The layered recovery chain of `Request.process`: first catch, its
render failures guarded by the second catch, whose failures are guarded by
the logging third catch. -/
def catchChain (st : RSt) (e : JsVal) : RSt × Except JsVal JsVal :=
  match catchOne st e with
  | (st1, Except.ok v) => (st1, Except.ok v)
  | (st1, Except.error e2) =>
    match catchTwo st1 e2 with
    | (st2, Except.ok v) => (st2, Except.ok v)
    | (st2, Except.error e3) => catchThree st2 e3

/-- The input of one `process()` run: the forwarded flag, the Router's
settlement (`parseRequest` resolving to a route or rejecting with an
arbitrary value), the body chunks the transport will deliver before its
end-of-body signal, the injected initial status code, and the number of
listeners attached to the destroy event emitter. -/
structure PInput where
  isForwarded : Bool
  routerResult : Except JsVal Route
  chunks : List JsVal
  initialStatus : Nat
  emListeners : Nat

/-- Initial orchestrator state for one `process()` run. -/
def initSt (inp : PInput) : RSt :=
  { statusCode := inp.initialStatus
    dataBuf := []
    writes := []
    ends := 0
    logs := []
    finishArmed := false
    closeArmed := false
    emListeners := inp.emListeners
    destroyCalls := 0
    emitDestroyCalls := 0
    deliveredDestroy := 0 }

/-- `Request.process`: unless forwarded, arm the one-shot `finish` and
`close` teardown listeners; then ask the Router for the route; on success
log it, and when the route's method is POST / PATCH / PUT and the request
is not forwarded, append the body chunks to `this.data` in arrival order
and suspend until end-of-body before continuing with the same resolved
route; render `route + method`; every failure anywhere in the pipeline
flows into the three-stage catch chain. -/
def Request.process (inp : PInput) : RSt × Except JsVal JsVal :=
  let st0 := initSt inp
  let st := if inp.isForwarded then st0
    else { st0 with finishArmed := true, closeArmed := true }
  match inp.routerResult with
  | Except.error e => catchChain st e
  | Except.ok r =>
    let st1 := { st with logs := st.logs ++ [("info", "Route.parseRequest", JsVal.undef)] }
    let st2 := if isMutatingMethod r.method && !inp.isForwarded
      then { st1 with dataBuf := st1.dataBuf ++ inp.chunks }
      else st1
    match Request.render st2 (JsVal.str (r.route ++ toString (methodNum r.method))) with
    | (st3, Except.ok v) => (st3, Except.ok v)
    | (st3, Except.error e) => catchChain st3 e

/-!
`Injector.createAndResolve` (resolution of one provider inside one
injector).  The external Metadata provider is out of scope in the spec and
is modelled from its §6 contract: a class carries its declared
sub-providers, its ordered constructor-injection keys, its
property-injection entries, whether `afterConstruct` is declared directly
on its prototype (`prototype.hasOwnProperty`), and whether
`instance.afterConstruct` is a function (own or inherited).  The injector
performing the resolution is modelled as its local provider map plus the
frozen maps of its ancestor chain (nothing writes to an ancestor during a
resolution), together with a fresh-instance counter.  Observable
construction steps are recorded as `REv` events. -/

mutual

/-- A class as described by the Metadata contract (modelled from the spec,
see above). -/
inductive CClass where
  | mk (name : String) (ctorProviders : List CProvider) (ctorKeys : List String)
      (protoKeys : List (String × String × Bool))
      (ownAfterConstruct : Bool) (fnAfterConstruct : Bool)

/-- A verified provider descriptor: `useValue` binding or `useClass`
recipe. -/
inductive CProvider where
  | useValue (provide : String) (value : Nat)
  | useClass (cls : CClass)

end

/-- Class name (its `provide` identity). -/
def CClass.name : CClass → String
  | CClass.mk n _ _ _ _ _ => n

/-- Declared sub-providers (`Metadata.getConstructorProviders` on the
class). -/
def CClass.ctorProviders : CClass → List CProvider
  | CClass.mk _ ps _ _ _ _ => ps

/-- Ordered constructor-injection keys
(`Metadata.getConstructorInjectKeys`). -/
def CClass.ctorKeys : CClass → List String
  | CClass.mk _ _ ks _ _ _ => ks

/-- Property-injection entries `(property, key, isMutable)`
(`Metadata.getConstructorPrototypeKeys`). -/
def CClass.protoKeys : CClass → List (String × String × Bool)
  | CClass.mk _ _ _ pk _ _ => pk

/-- `useClass.prototype.hasOwnProperty("afterConstruct")`. -/
def CClass.ownAfterConstruct : CClass → Bool
  | CClass.mk _ _ _ _ o _ => o

/-- `isFunction(instance.afterConstruct)` (own or inherited). -/
def CClass.fnAfterConstruct : CClass → Bool
  | CClass.mk _ _ _ _ _ f => f

/-- The `provide` key of a provider descriptor. -/
def CProvider.provideKey : CProvider → String
  | CProvider.useValue k _ => k
  | CProvider.useClass c => c.name

/-- `Metadata.getConstructorProviders(provider.provide)`: the declared
sub-providers of a class key, nothing for a string token. -/
def ctorProvidersOf : CProvider → List CProvider
  | CProvider.useValue _ _ => []
  | CProvider.useClass c => c.ctorProviders

/-- `Metadata.mergeProviders(declared, overrides)`.  Modelled from the
spec: caller-supplied overrides win over declared entries on key
collision. -/
def mergeProviders (declared overrides : List CProvider) : List CProvider :=
  overrides ++ declared.filter (fun d =>
    overrides.all (fun o => o.provideKey != d.provideKey))

/-- The resolving injector: its local provider map, the frozen provider
maps of its ancestor chain (nearest first), and the fresh-instance
counter. -/
structure ISt where
  loc : List (String × Nat)
  ancestors : List (List (String × Nat))
  fresh : Nat

/-- `Injector.get` as seen during a resolution: the local map first, then
the ancestor chain in order; absence everywhere is the fail-fast
"No provider" error. -/
def ISt.get (st : ISt) (k : String) : Except String Nat :=
  match List.lookup k st.loc with
  | some v => Except.ok v
  | none =>
    match (st.ancestors.filterMap (fun m => List.lookup k m)).head? with
    | some v => Except.ok v
    | none => Except.error ("No provider for " ++ k)

/-- `Injector.set` on the local map (JS `Map.set` semantics). -/
def ISt.set (st : ISt) (k : String) (v : Nat) : ISt :=
  { st with loc := mapSet st.loc k v }

/-- Resolve each constructor-injection key in declared order
(`keys.map(arg => this.get(arg, provider))`), failing fast. -/
def igets (st : ISt) : List String → Except String (List Nat)
  | [] => Except.ok []
  | k :: rest =>
    match st.get k with
    | Except.error e => Except.error e
    | Except.ok v =>
      match igets st rest with
      | Except.error e => Except.error e
      | Except.ok vs => Except.ok (v :: vs)

/-- An observable construction step of a resolution: `Reflect.construct`
of a class, a `Reflect.defineProperty` property injection on its instance,
or the `afterConstruct` hook invocation. -/
inductive REv where
  | constructed (cls : String)
  | propSet (cls : String) (prop : String)
  | hook (cls : String)
deriving DecidableEq

/-- The `protoKeys.forEach` loop: for each entry resolve its key via `get`
(failing fast) and define the property on the instance. -/
def resolveProps (st : ISt) (cname : String) :
    List (String × String × Bool) → ISt × List REv × Except String Nat
  | [] => (st, [], Except.ok 0)
  | (prop, key, _mut) :: rest =>
    match st.get key with
    | Except.error e => (st, [], Except.error e)
    | Except.ok _v =>
      match resolveProps st cname rest with
      | (st2, evs, r) => (st2, REv.propSet cname prop :: evs, r)

/-- The `providers.forEach(item => this.createAndResolve(item,
Metadata.getConstructorProviders(item.provide)))` loop, parameterized by
the per-item resolution `c` (the recursive resolve at the next fuel
level), aborted by a thrown resolution error. -/
def resolveAll (c : ISt → CProvider → List CProvider → ISt × List REv × Except String Nat)
    (st : ISt) : List CProvider → ISt × List REv × Except String Nat
  | [] => (st, [], Except.ok 0)
  | p :: rest =>
    match c st p (ctorProvidersOf p) with
    | (st1, evs, Except.error e) => (st1, evs, Except.error e)
    | (st1, evs, Except.ok _) =>
      match resolveAll c st1 rest with
      | (st2, evs2, r) => (st2, evs ++ evs2, r)

/-- `Injector.createAndResolve(provider, providers)`: merge the declared
sub-providers with the caller-supplied ones (overrides win), resolve every
merged sub-provider first, then either bind a `useValue` directly and
return `get(provide)`, or resolve the constructor keys, construct the
instance, apply each property injection, bind the instance, invoke
`afterConstruct` exactly when the class both declares it on its own
prototype and it is a function, and finally register the injector under
its own identity (modelled as the reserved key `"Injector"`).  Recursion
depth is bounded by `fuel`. -/
def createAndResolve (fuel : Nat) :
    ISt → CProvider → List CProvider → ISt × List REv × Except String Nat :=
  match fuel with
  | 0 => fun st _ _ => (st, [], Except.error "fuel exhausted")
  | f + 1 => fun st p provs =>
    let merged := mergeProviders (ctorProvidersOf p) provs
    match resolveAll (createAndResolve f) st merged with
    | (st1, evs, Except.error e) => (st1, evs, Except.error e)
    | (st1, evs, Except.ok _) =>
      match p with
      | CProvider.useValue k v =>
        let st2 := st1.set k v
        (st2, evs, st2.get k)
      | CProvider.useClass cls =>
        match igets st1 cls.ctorKeys with
        | Except.error e => (st1, evs, Except.error e)
        | Except.ok _args =>
          let inst := st1.fresh
          let st2 := { st1 with fresh := st1.fresh + 1 }
          match resolveProps st2 cls.name cls.protoKeys with
          | (st3, pevs, Except.error e) =>
            (st3, evs ++ [REv.constructed cls.name] ++ pevs, Except.error e)
          | (st3, pevs, Except.ok _) =>
            let st4 := st3.set cls.name inst
            let hevs := if cls.ownAfterConstruct && cls.fnAfterConstruct
              then [REv.hook cls.name] else []
            let st5 := st4.set "Injector" 0
            (st5, evs ++ [REv.constructed cls.name] ++ pevs ++ hevs, Except.ok inst)

/-!
Concrete fixtures used by closed witness and counterexample theorems.
-/

/-- An orchestrator state fresh out of construction: default status 200,
nothing buffered, written or logged, listeners not yet armed. -/
def rst200 : RSt :=
  { statusCode := 200, dataBuf := [], writes := [], ends := 0, logs := []
    finishArmed := false, closeArmed := false, emListeners := 0
    destroyCalls := 0, emitDestroyCalls := 0, deliveredDestroy := 0 }

/-- A non-forwarded request whose Router rejects with the bare string
"boom" (not a structured HTTP error), with one destroy listener
attached. -/
def pIn0 : PInput :=
  { isForwarded := false, routerResult := Except.error (JsVal.str "boom")
    chunks := [], initialStatus := 200, emListeners := 1 }

/-- A non-forwarded request whose Router rejects with `undefined`
(`Promise.reject(undefined)`). -/
def pInUndef : PInput :=
  { isForwarded := false, routerResult := Except.error JsVal.undef
    chunks := [], initialStatus := 200, emListeners := 1 }

/-- A non-forwarded PUT request delivering the body chunks "a", "b", "c"
in that order. -/
def pInPut : PInput :=
  { isForwarded := false
    routerResult := Except.ok { route := "r", method := Method.put }
    chunks := [JsVal.str "a", JsVal.str "b", JsVal.str "c"]
    initialStatus := 200, emListeners := 0 }

/-- A class declaring one constructor-injected key, one property-injected
key and its own `afterConstruct` hook. -/
def clsA : CClass :=
  CClass.mk "A" [] ["d"] [("p", "d", true)] true true

/-- The same class with `afterConstruct` only inherited (not declared on
its own prototype, though `instance.afterConstruct` is a function). -/
def clsB : CClass :=
  CClass.mk "B" [] ["d"] [("p", "d", true)] false true

/-- An empty standalone injector for resolution witnesses. -/
def ist0 : ISt := { loc := [], ancestors := [], fresh := 0 }

/-!
Helper lemmas shared by the claim theorems.
-/

deriving instance DecidableEq for Except

/-- String concatenation concatenates the underlying character lists. -/
theorem strDataAppend (a b : String) : (a ++ b).data = a.data ++ b.data := rfl

/-- A list is a Boolean prefix of itself followed by anything. -/
theorem isPrefixOfAppend (l t : List Char) : List.isPrefixOf l (l ++ t) = true := by
  induction l with
  | nil => simp [List.isPrefixOf]
  | cons a l ih => simp [List.isPrefixOf, ih]

/-- Soundness of the executable substring test: a `mentions` witness makes
`containsB` answer `true`. -/
theorem containsB_of_mentions {hay needle : String} (h : mentions hay needle) :
    containsB hay needle = true := by
  obtain ⟨pre, post, hd⟩ := h
  unfold containsB
  rw [List.any_eq_true]
  refine ⟨pre.length, List.mem_range.mpr ?_, ?_⟩
  · have hlen : hay.data.length = pre.length + (needle.data.length + post.length) := by
      rw [hd]; simp [List.length_append]
    omega
  · have hdrop : hay.data.drop pre.length = needle.data ++ post := by
      rw [hd, List.append_assoc, List.drop_left]
    rw [hdrop]
    exact isPrefixOfAppend needle.data post

/-- The captured children list of the parent after the first child of
`[1, 2]` removed itself. -/
theorem spliceRemoveSingle : spliceRemove [1] 1 = [] := rfl

/-- C1: destroying a parent container with two live children destroys only
the first: each child's `destroy` splices itself out of the parent's
`_children` array while `forEach` is iterating it, so the second child is
skipped — its bindings survive and its parent link still points at the
destroyed parent, even though the parent ends up with no children
attached.  This contradicts the claim (and the source's own documentation)
that destroy cleans up all children. -/
theorem destroyParentSkipsSecondChild :
    ((Injector.destroy 3 bugTree 0).nodes 1).providers = []
    ∧ ((Injector.destroy 3 bugTree 0).nodes 1).parent = none
    ∧ ((Injector.destroy 3 bugTree 0).nodes 2).providers = [("k2", 2)]
    ∧ ((Injector.destroy 3 bugTree 0).nodes 2).parent = some 0
    ∧ ((Injector.destroy 3 bugTree 0).nodes 0).providers = []
    ∧ ((Injector.destroy 3 bugTree 0).nodes 0).children = [] := by
  decide

/-- C4 (counterexample): when the key is bound nowhere, `get` called on a
child container reports the `_uid` of the ROOT of the ancestor chain (the
node whose recursion found no parent), not the identifier of the container
on which `get` was called: the message for `get` on the child (uid "u1")
mentions "u0" and never mentions "u1". -/
theorem getNoProviderUidIsRootNotCallee :
    Injector.get 2 (chain2 "u0" "u1" [] []) 1 "k" (some "C")
      = Except.error "No provider for k on class C , injector: u0"
    ∧ ¬ mentions "No provider for k on class C , injector: u0" "u1" := by
  constructor
  · decide
  · intro h
    exact absurd (containsB_of_mentions h) (by decide)

/-- C4 (amended): for every key bound neither in the child nor in its
parent, `get(key, contextClass)` on the child fails with a "no provider"
error whose message names the key, names the requesting class, and
contains the identifier of the LAST container of the ancestor chain (the
root, which found no parent and raised the error). -/
theorem getNoProviderNamesKeyClassAndRootUid
    (u0 u1 k c : String) (pP cP : List (String × Nat))
    (hp : List.lookup k pP = none) (hc : List.lookup k cP = none) :
    Injector.get 2 (chain2 u0 u1 pP cP) 1 k (some c)
      = Except.error ("No provider for " ++ k ++ " on class " ++ c ++ " , injector: " ++ u0)
    ∧ mentions ("No provider for " ++ k ++ " on class " ++ c ++ " , injector: " ++ u0) k
    ∧ mentions ("No provider for " ++ k ++ " on class " ++ c ++ " , injector: " ++ u0) c
    ∧ mentions ("No provider for " ++ k ++ " on class " ++ c ++ " , injector: " ++ u0) u0 := by
  refine ⟨?_, ?_, ?_, ?_⟩
  · simp [Injector.get, chain2, hp, hc]
  · exact ⟨("No provider for ").data, (" on class " ++ c ++ " , injector: " ++ u0).data,
      by simp [strDataAppend, List.append_assoc]⟩
  · exact ⟨("No provider for " ++ k ++ " on class ").data, (" , injector: " ++ u0).data,
      by simp [strDataAppend, List.append_assoc]⟩
  · exact ⟨("No provider for " ++ k ++ " on class " ++ c ++ " , injector: ").data, [],
      by simp [strDataAppend, List.append_assoc]⟩

/-- C4 (witness): the amended theorem applied at a concrete chain whose
containers hold other bindings but not the requested key. -/
theorem getNoProviderNamesKeyClassAndRootUidWitness :
    Injector.get 2 (chain2 "u0" "u1" [("x", 1)] [("y", 2)]) 1 "dep" (some "Ctrl")
      = Except.error ("No provider for " ++ "dep" ++ " on class " ++ "Ctrl"
          ++ " , injector: " ++ "u0")
    ∧ mentions ("No provider for " ++ "dep" ++ " on class " ++ "Ctrl"
        ++ " , injector: " ++ "u0") "dep"
    ∧ mentions ("No provider for " ++ "dep" ++ " on class " ++ "Ctrl"
        ++ " , injector: " ++ "u0") "Ctrl"
    ∧ mentions ("No provider for " ++ "dep" ++ " on class " ++ "Ctrl"
        ++ " , injector: " ++ "u0") "u0" :=
  getNoProviderNamesKeyClassAndRootUid "u0" "u1" "dep" "Ctrl" [("x", 1)] [("y", 2)] rfl rfl

/-- C5: a key bound both in the parent and in the child resolves to the
child's own binding on the child (local before parent), and after
destroying the child the parent still resolves the key to its own original
binding. -/
theorem childShadowsParentAndSurvivesChildDestroy
    (u0 u1 k : String) (v w : Nat) (pP cP : List (String × Nat))
    (hc : List.lookup k cP = some v) (hp : List.lookup k pP = some w) :
    Injector.get 2 (chain2 u0 u1 pP cP) 1 k none = Except.ok v
    ∧ Injector.get 2 (Injector.destroy 1 (chain2 u0 u1 pP cP) 1) 0 k none = Except.ok w := by
  constructor
  · simp [Injector.get, chain2, hc]
  · simp [Injector.get, Injector.destroy, destroyChildren, Injector.removeChild,
      updNode, chain2, spliceRemoveSingle, hp]

/-- C5 (witness): shadowing and parent survival at a concrete chain. -/
theorem childShadowsParentAndSurvivesChildDestroyWitness :
    Injector.get 2 (chain2 "u0" "u1" [("k", 2)] [("k", 1)]) 1 "k" none = Except.ok 1
    ∧ Injector.get 2 (Injector.destroy 1 (chain2 "u0" "u1" [("k", 2)] [("k", 1)]) 1) 0 "k" none
      = Except.ok 2 :=
  childShadowsParentAndSurvivesChildDestroy "u0" "u1" "k" 1 2 [("k", 2)] [("k", 1)] rfl rfl

/-- C10: after `destroy()` completes on a container, every `get` on it
fails with a "no provider" error: destroy unconditionally clears the local
map and severs the parent link, so no previously resolved instance is
returned and no former parent is consulted. -/
theorem getAfterDestroyFailsLoudly (t : InjTree) (i f g : Nat) (k : String) :
    Injector.get (g + 1) (Injector.destroy (f + 1) t i) i k none
      = Except.error ("No provider for " ++ k ++ ", injector: "
          ++ ((Injector.destroy (f + 1) t i).nodes i).uid) := by
  simp [Injector.get, Injector.destroy, updNode]

/-- C2 (counterexample): when the Router rejects with `undefined`, the
first catch throws a TypeError reading `.message`, the second throws a
TypeError calling `.getCode()`, and the third logs and swallows:
`process()` resolves with zero responses written — not exactly one 500
response as claimed. -/
theorem routerRejectUndefinedWritesNoResponse :
    (Request.process pInUndef).2 = Except.ok JsVal.undef
    ∧ (Request.process pInUndef).1.writes = []
    ∧ ¬ (Request.process pInUndef).1.writes.length = 1 := by
  decide

/-- C2 (amended): whatever value the Router rejects with, `process()`
resolves (never rejects); when the rejection value is anything but
`undefined` — so property access on it succeeds — exactly one response is
written, with status 500 whenever the value is not a structured HTTP
error; when it is `undefined`, the recovery stages themselves throw and
the last one swallows, so no response is written. -/
theorem processResolvesOnRouterRejection (inp : PInput) (e : JsVal)
    (h : inp.routerResult = Except.error e) :
    (∃ v, (Request.process inp).2 = Except.ok v)
    ∧ (e ≠ JsVal.undef → (Request.process inp).1.writes.length = 1)
    ∧ (e ≠ JsVal.undef → isHttpError e = false →
        ∀ w ∈ (Request.process inp).1.writes, w.1 = 500)
    ∧ (e = JsVal.undef → (Request.process inp).1.writes = []) := by
  cases hf : inp.isForwarded <;> cases e <;>
    simp [Request.process, h, hf, catchChain, catchOne, catchTwo, catchThree,
      normalizeErr, jsMessage, jsStack, getCode, textOf, typeErrorRead,
      typeErrorNotFunction, Request.render, initSt, isTextOrBinary, isHttpError]

/-- C2 (witness): the Router rejecting with the bare string "boom" yields
a resolved `process()` and a single response with status 500. -/
theorem processResolvesOnRouterRejectionWitness :
    (∃ v, (Request.process pIn0).2 = Except.ok v)
    ∧ (JsVal.str "boom" ≠ JsVal.undef → (Request.process pIn0).1.writes.length = 1)
    ∧ (JsVal.str "boom" ≠ JsVal.undef → isHttpError (JsVal.str "boom") = false →
        ∀ w ∈ (Request.process pIn0).1.writes, w.1 = 500)
    ∧ (JsVal.str "boom" = JsVal.undef → (Request.process pIn0).1.writes = []) :=
  processResolvesOnRouterRejection pIn0 (JsVal.str "boom") rfl

/-- C7 (counterexample): for the thrown value `undefined` — which is not a
structured HTTP error — the first recovery stage does NOT replace it with
a structured 500: reading `_error.message` throws a TypeError, leaving the
orchestrator state untouched (no status change, no log, no re-render). -/
theorem firstCatchThrowsOnUndefined :
    (catchOne rst200 JsVal.undef).2 = Except.error (typeErrorRead "message")
    ∧ (catchOne rst200 JsVal.undef).1 = rst200
    ∧ (catchOne rst200 JsVal.undef).1.writes = [] := by
  decide

/-- C7 (amended): every value thrown during the pipeline that is not a
structured HTTP error and is not `undefined` (so its property accesses
succeed) is replaced by the first recovery stage with a structured error
of status code 500 whose message and stack equal the original value's
`message` and `stack`; the stage then sets the orchestrator's status code
to 500 from that error and the re-render writes with that status.  For
`undefined` the stage itself throws instead (see the counterexample). -/
theorem firstCatchNormalizesTo500PreservingMessageAndStack (st : RSt) (e : JsVal)
    (h : isHttpError e = false) (hu : e ≠ JsVal.undef) :
    ∃ m s, jsMessage e = Except.ok m ∧ jsStack e = Except.ok s
      ∧ normalizeErr e = Except.ok (JsVal.httpError 500 m s JsVal.obj)
      ∧ (catchOne st e).1.statusCode = 500
      ∧ (catchOne st e).1.writes = st.writes
          ++ [(500, "text/html",
              JsVal.str (clean (errToString (JsVal.httpError 500 m s JsVal.obj))))] := by
  cases e with
  | undef => exact absurd rfl hu
  | httpError c m s d => simp [isHttpError] at h
  | jsError m s =>
    refine ⟨m, s, rfl, rfl, by simp [normalizeErr, isHttpError, jsMessage, jsStack], ?_, ?_⟩ <;>
      simp [catchOne, normalizeErr, isHttpError, jsMessage, jsStack, getCode, textOf,
        Request.render, isTextOrBinary]
  | str t =>
    refine ⟨JsVal.undef, JsVal.undef, rfl, rfl,
      by simp [normalizeErr, isHttpError, jsMessage, jsStack], ?_, ?_⟩ <;>
      simp [catchOne, normalizeErr, isHttpError, jsMessage, jsStack, getCode, textOf,
        Request.render, isTextOrBinary]
  | buf b =>
    refine ⟨JsVal.undef, JsVal.undef, rfl, rfl,
      by simp [normalizeErr, isHttpError, jsMessage, jsStack], ?_, ?_⟩ <;>
      simp [catchOne, normalizeErr, isHttpError, jsMessage, jsStack, getCode, textOf,
        Request.render, isTextOrBinary]
  | num k =>
    refine ⟨JsVal.undef, JsVal.undef, rfl, rfl,
      by simp [normalizeErr, isHttpError, jsMessage, jsStack], ?_, ?_⟩ <;>
      simp [catchOne, normalizeErr, isHttpError, jsMessage, jsStack, getCode, textOf,
        Request.render, isTextOrBinary]
  | obj =>
    refine ⟨JsVal.undef, JsVal.undef, rfl, rfl,
      by simp [normalizeErr, isHttpError, jsMessage, jsStack], ?_, ?_⟩ <;>
      simp [catchOne, normalizeErr, isHttpError, jsMessage, jsStack, getCode, textOf,
        Request.render, isTextOrBinary]

/-- C7 (witness): the first catch applied to a plain `Error` with message
"m" and stack "s". -/
theorem firstCatchNormalizesWitness :
    ∃ m s, jsMessage (JsVal.jsError (JsVal.str "m") (JsVal.str "s")) = Except.ok m
      ∧ jsStack (JsVal.jsError (JsVal.str "m") (JsVal.str "s")) = Except.ok s
      ∧ normalizeErr (JsVal.jsError (JsVal.str "m") (JsVal.str "s"))
          = Except.ok (JsVal.httpError 500 m s JsVal.obj)
      ∧ (catchOne rst200 (JsVal.jsError (JsVal.str "m") (JsVal.str "s"))).1.statusCode = 500
      ∧ (catchOne rst200 (JsVal.jsError (JsVal.str "m") (JsVal.str "s"))).1.writes
          = rst200.writes ++ [(500, "text/html",
              JsVal.str (clean (errToString (JsVal.httpError 500 m s JsVal.obj))))] :=
  firstCatchNormalizesTo500PreservingMessageAndStack rst200
    (JsVal.jsError (JsVal.str "m") (JsVal.str "s")) rfl (by decide)

/-- C8: when the Router resolves a route, the body buffer right before
rendering (and after it — rendering never touches it) holds exactly the
delivered chunks in arrival order if the route's method is POST, PATCH or
PUT and the request is not forwarded, and stays empty otherwise; rendering
then writes exactly one response whose payload is composed from the very
route descriptor the Router resolved. -/
theorem bodyAccumulationOrderAndGuard (inp : PInput) (r : Route)
    (h : inp.routerResult = Except.ok r) :
    (Request.process inp).1.dataBuf
      = (if isMutatingMethod r.method && !inp.isForwarded then inp.chunks else [])
    ∧ (Request.process inp).1.writes
      = [(inp.initialStatus, "text/html",
          JsVal.str (r.route ++ toString (methodNum r.method)))] := by
  cases hf : inp.isForwarded <;> cases hm : isMutatingMethod r.method <;>
    simp [Request.process, h, hf, hm, Request.render, initSt, isTextOrBinary]

/-- C8 (witness): a PUT request delivering chunks "a", "b", "c" in that
order has buffer exactly ["a", "b", "c"] before (and after) rendering. -/
theorem bodyAccumulationOrderAndGuardWitness :
    (Request.process pInPut).1.dataBuf
      = (if isMutatingMethod Method.put && !pInPut.isForwarded
          then pInPut.chunks else [])
    ∧ (Request.process pInPut).1.writes
      = [(pInPut.initialStatus, "text/html",
          JsVal.str ("r" ++ toString (methodNum Method.put)))] :=
  bodyAccumulationOrderAndGuard pInPut { route := "r", method := Method.put } rfl

/-- C9: `render` on a string or Buffer payload writes the current status
code with the fixed `text/html` content type, streams the payload,
terminates the response and returns the payload unchanged; on any other
value it appends an error-severity log entry carrying the offending value
and throws the structured 500 "ResponseType must be string or buffer"
error carrying that value. -/
theorem renderTypeGuard (st : RSt) (v : JsVal) :
    (isTextOrBinary v = true →
      Request.render st v
        = ({ st with
              logs := st.logs ++ [("info", "Request.render", JsVal.undef)]
              writes := st.writes ++ [(st.statusCode, "text/html", v)]
              ends := st.ends + 1 },
            Except.ok v))
    ∧ (isTextOrBinary v = false →
      Request.render st v
        = ({ st with
              logs := st.logs ++ [("info", "Request.render", JsVal.undef),
                ("error", "Invalid response type", v)] },
            Except.error (JsVal.httpError 500
              (JsVal.str "ResponseType must be string or buffer") JsVal.undef v))) := by
  constructor <;> intro h <;> simp [Request.render, h]

/-- C9 (witness): rendering the text "hello" at the default status 200
writes `(200, text/html, "hello")` and returns "hello" unchanged;
rendering an opaque object raises the structured 500 error carrying it. -/
theorem renderTypeGuardWitness :
    Request.render rst200 (JsVal.str "hello")
      = ({ rst200 with
            logs := rst200.logs ++ [("info", "Request.render", JsVal.undef)]
            writes := rst200.writes ++ [(rst200.statusCode, "text/html", JsVal.str "hello")]
            ends := rst200.ends + 1 },
          Except.ok (JsVal.str "hello"))
    ∧ Request.render rst200 JsVal.obj
      = ({ rst200 with
            logs := rst200.logs ++ [("info", "Request.render", JsVal.undef),
              ("error", "Invalid response type", JsVal.obj)] },
          Except.error (JsVal.httpError 500
            (JsVal.str "ResponseType must be string or buffer") JsVal.undef JsVal.obj)) :=
  ⟨(renderTypeGuard rst200 (JsVal.str "hello")).1 rfl,
    (renderTypeGuard rst200 JsVal.obj).2 rfl⟩

/-- After a non-forwarded `process()` run, both one-shot teardown
listeners are armed and no teardown has happened yet; the pipeline never
touches the destroy emitter's listeners. -/
theorem processWiresTeardownListeners (inp : PInput) (h : inp.isForwarded = false) :
    (Request.process inp).1.finishArmed = true
    ∧ (Request.process inp).1.closeArmed = true
    ∧ (Request.process inp).1.destroyCalls = 0
    ∧ (Request.process inp).1.emitDestroyCalls = 0
    ∧ (Request.process inp).1.deliveredDestroy = 0
    ∧ (Request.process inp).1.emListeners = inp.emListeners := by
  cases hr : inp.routerResult with
  | error e =>
    cases e <;>
      simp [Request.process, h, hr, catchChain, catchOne, catchTwo, catchThree,
        normalizeErr, jsMessage, jsStack, getCode, textOf, typeErrorRead,
        typeErrorNotFunction, Request.render, initSt, isTextOrBinary, isHttpError]
  | ok r =>
    cases hm : isMutatingMethod r.method <;>
      simp [Request.process, h, hr, hm, Request.render, initSt, isTextOrBinary]

/-- C3 (counterexample): on a non-forwarded orchestrator both the `finish`
and the `close` one-shot listeners independently run `destroy`, so when
both signals fire, teardown runs twice — not exactly once — and
`emit("destroy")` is invoked twice. -/
theorem bothSignalsRunDestroyTwice :
    (fireClose (fireFinish (Request.process pIn0).1)).destroyCalls = 2
    ∧ ¬ (fireClose (fireFinish (Request.process pIn0).1)).destroyCalls = 1
    ∧ (fireClose (fireFinish (Request.process pIn0).1)).emitDestroyCalls = 2 := by
  decide

/-- C3 (amended): each termination signal is one-shot, so firing the same
signal twice tears down only once, but `finish` and `close` are guarded
separately: when both fire (in either order) `destroy` runs once per
signal — twice in total — while the attached listeners still receive the
destroy notification exactly once, because the first teardown removes all
listeners before the second emission. -/
theorem teardownOncePerSignalListenersNotifiedOnce (inp : PInput)
    (h : inp.isForwarded = false) :
    (fireClose (fireFinish (Request.process inp).1)).destroyCalls = 2
    ∧ (fireFinish (fireClose (Request.process inp).1)).destroyCalls = 2
    ∧ (fireClose (fireFinish (Request.process inp).1)).deliveredDestroy = inp.emListeners
    ∧ (fireFinish (fireClose (Request.process inp).1)).deliveredDestroy = inp.emListeners
    ∧ (fireClose (fireFinish (Request.process inp).1)).emListeners = 0
    ∧ (fireFinish (fireFinish (Request.process inp).1)).destroyCalls = 1
    ∧ (fireFinish (fireFinish (Request.process inp).1)).deliveredDestroy = inp.emListeners := by
  obtain ⟨h1, h2, h3, h4, h5, h6⟩ := processWiresTeardownListeners inp h
  refine ⟨?_, ?_, ?_, ?_, ?_, ?_, ?_⟩ <;>
    simp [fireFinish, fireClose, Request.destroy, h1, h2, h3, h4, h5, h6]

/-- C3 (witness): the amended behavior at the concrete rejected request
with one destroy listener. -/
theorem teardownOncePerSignalWitness :
    (fireClose (fireFinish (Request.process pIn0).1)).destroyCalls = 2
    ∧ (fireFinish (fireClose (Request.process pIn0).1)).destroyCalls = 2
    ∧ (fireClose (fireFinish (Request.process pIn0).1)).deliveredDestroy = pIn0.emListeners
    ∧ (fireFinish (fireClose (Request.process pIn0).1)).deliveredDestroy = pIn0.emListeners
    ∧ (fireClose (fireFinish (Request.process pIn0).1)).emListeners = 0
    ∧ (fireFinish (fireFinish (Request.process pIn0).1)).destroyCalls = 1
    ∧ (fireFinish (fireFinish (Request.process pIn0).1)).deliveredDestroy = pIn0.emListeners :=
  teardownOncePerSignalListenersNotifiedOnce pIn0 rfl

/-- A successful property-injection loop emits exactly one `propSet` event
per declared entry, in declaration order, and nothing else. -/
theorem resolvePropsOkEvents (st : ISt) (n : String)
    (l : List (String × String × Bool)) (st2 : ISt) (evs : List REv) (u : Nat)
    (h : resolveProps st n l = (st2, evs, Except.ok u)) :
    evs = l.map (fun e => REv.propSet n e.1) := by
  induction l generalizing st2 evs u with
  | nil =>
    simp [resolveProps] at h
    simp [h.2.1.symm]
  | cons hd tl ih =>
    obtain ⟨prop, key, m⟩ := hd
    unfold resolveProps at h
    cases hg : st.get key with
    | error e => rw [hg] at h; simp at h
    | ok v =>
      rw [hg] at h
      cases hrec : resolveProps st n tl with
      | mk stb rest =>
        obtain ⟨evs2, r2⟩ := rest
        rw [hrec] at h
        simp at h
        obtain ⟨hb, hevs, hr2⟩ := h
        rw [hr2] at hrec
        have := ih stb evs2 u hrec
        simp [hevs.symm, this]

/-- C6: whenever `createAndResolve` successfully resolves a `useClass`
provider, the events of that resolution decompose into the sub-provider
resolutions followed by this class's own construction, then all of its
property injections in declaration order, then — exactly when the class
declares `afterConstruct` on its own prototype and it is a function — a
single hook invocation; so the hook fires exactly once per resolution,
only after every constructor argument and property injection, never
before, and a merely inherited hook never fires. -/
theorem afterConstructFiresOnceAfterInjections
    (f : Nat) (st : ISt) (cls : CClass) (provs : List CProvider)
    (stf : ISt) (evs : List REv) (v : Nat)
    (h : createAndResolve (f + 1) st (CProvider.useClass cls) provs
      = (stf, evs, Except.ok v)) :
    (∃ pre, evs = pre ++ [REv.constructed cls.name]
        ++ cls.protoKeys.map (fun e => REv.propSet cls.name e.1)
        ++ (if cls.ownAfterConstruct && cls.fnAfterConstruct
            then [REv.hook cls.name] else []))
    ∧ ([REv.constructed cls.name]
        ++ cls.protoKeys.map (fun e => REv.propSet cls.name e.1)
        ++ (if cls.ownAfterConstruct && cls.fnAfterConstruct
            then [REv.hook cls.name] else [])).count (REv.hook cls.name)
      = (if cls.ownAfterConstruct && cls.fnAfterConstruct then 1 else 0) := by
  constructor
  · simp only [createAndResolve] at h
    cases hra : resolveAll (createAndResolve f) st
        (mergeProviders (ctorProvidersOf (CProvider.useClass cls)) provs) with
    | mk st1 rest1 =>
      obtain ⟨evs1, r1⟩ := rest1
      rw [hra] at h
      cases r1 with
      | error e => simp at h
      | ok w =>
        simp only at h
        cases hig : igets st1 cls.ctorKeys with
        | error e => rw [hig] at h; simp at h
        | ok args =>
          rw [hig] at h
          cases hrp : resolveProps { st1 with fresh := st1.fresh + 1 } cls.name cls.protoKeys with
          | mk st3 rest3 =>
            obtain ⟨pevs, r3⟩ := rest3
            rw [hrp] at h
            cases r3 with
            | error e => simp at h
            | ok u =>
              simp at h
              obtain ⟨hst, hevs, hv⟩ := h
              have hp := resolvePropsOkEvents _ _ _ _ _ _ hrp
              exact ⟨evs1, by simp [hevs.symm, hp, List.append_assoc]⟩
  · cases hb : (cls.ownAfterConstruct && cls.fnAfterConstruct) <;>
      simp [hb, List.count_append, List.count_eq_zero, List.mem_map, List.count_singleton]

/-- C6 (witness): resolving a concrete class with a declared own hook
yields events `[constructed, propSet, hook]`, and resolving a class whose
hook is only inherited yields no hook event. -/
theorem afterConstructFiresOnceWitness :
    (∃ pre, (createAndResolve 3 ist0 (CProvider.useClass clsA)
        [CProvider.useValue "d" 7]).2.1
      = pre ++ [REv.constructed clsA.name]
        ++ clsA.protoKeys.map (fun e => REv.propSet clsA.name e.1)
        ++ (if clsA.ownAfterConstruct && clsA.fnAfterConstruct
            then [REv.hook clsA.name] else []))
    ∧ ([REv.constructed clsA.name]
        ++ clsA.protoKeys.map (fun e => REv.propSet clsA.name e.1)
        ++ (if clsA.ownAfterConstruct && clsA.fnAfterConstruct
            then [REv.hook clsA.name] else [])).count (REv.hook clsA.name)
      = (if clsA.ownAfterConstruct && clsA.fnAfterConstruct then 1 else 0)
    ∧ ([REv.constructed clsB.name]
        ++ clsB.protoKeys.map (fun e => REv.propSet clsB.name e.1)
        ++ (if clsB.ownAfterConstruct && clsB.fnAfterConstruct
            then [REv.hook clsB.name] else [])).count (REv.hook clsB.name)
      = (if clsB.ownAfterConstruct && clsB.fnAfterConstruct then 1 else 0) :=
  ⟨(afterConstructFiresOnceAfterInjections 2 ist0 clsA [CProvider.useValue "d" 7] _ _ 0 rfl).1,
    (afterConstructFiresOnceAfterInjections 2 ist0 clsA [CProvider.useValue "d" 7] _ _ 0 rfl).2,
    (afterConstructFiresOnceAfterInjections 2 ist0 clsB [CProvider.useValue "d" 7] _ _ 0 rfl).2⟩
